import Mathlib

/-!
Verification of the core logic of ProcPortManager
(src/modules/process_manager.py and src/modules/port_manager.py)
against its natural-language specification.

The Python functions are shallowly embedded as Lean functions.  OS
interaction (psutil) is modelled by an explicit environment record that
fixes the outcome of every external call the Python code makes
(resolution of a pid, the recursive child list, success or exception of
`terminate`/`kill`, the partition computed by `wait_procs`, ...).  The
embedded `terminate_process_tree` additionally produces a trace of the
signalling and waiting events in the order the Python code performs
them, so that temporal claims can be stated.
-/

namespace ProcPort

/-! ## Generic helpers -/

/-- `dict.fromkeys`-style deduplication: keeps the first occurrence of
each element, preserving order (process_manager.py lines 172-173,
`list(dict.fromkeys(...))`; also the `unique` dict of
port_manager.py lines 31-34).  `seen` accumulates the keys already
inserted. -/
def dedupFirstAux (seen : List Nat) : List Nat → List Nat
  | [] => []
  | x :: xs =>
    if x ∈ seen then dedupFirstAux seen xs
    else x :: dedupFirstAux (x :: seen) xs

def dedupFirst (l : List Nat) : List Nat :=
  dedupFirstAux [] l

/-- Python's `sub in s` substring test, on the underlying character lists. -/
def strContains (s sub : String) : Bool :=
  s.toList.tails.any (fun t => sub.toList.isPrefixOf t)

/-- Python `str.lower()`, restricted to ASCII case mapping. -/
def pyLower (s : String) : String :=
  String.mk (s.toList.map Char.toLower)

/-- Python `str.upper()`, restricted to ASCII case mapping. -/
def pyUpper (s : String) : String :=
  String.mk (s.toList.map Char.toUpper)

/-- Python `str.startswith(p)`, on the underlying character lists. -/
def pyStartsWith (s p : String) : Bool :=
  p.toList.isPrefixOf s.toList

/-! ## Categorizer (process_manager.py lines 24-39)

`categorize_process(pid, name, username)` — a pure function.  `name` and
`username` may be `None` at the call sites (the snapshot code passes the
raw `username` field, which psutil reports as `None` for inaccessible
processes), so both are modelled as `Option String`; `name or ""`
(line 34) also maps the empty string to `""`, so `Option.getD ""` is
exact.  With these argument types no operation in the body can raise, so
the `except: return "Other"` branch (lines 38-39) is unreachable in the
model. -/

def categorize_process (pid : Int) (name : Option String) (username : Option String) : String :=
  if pid = 0 then "System Idle"
  else if pid ≤ 4 then "System"
  else match username with
    | none => "Background"
    | some u =>
      let uname := pyUpper u
      let lname := pyLower (name.getD "")
      if strContains lname "service"
          ∨ uname = "SYSTEM"
          ∨ pyStartsWith uname "NT AUTHORITY" then "Services"
      else "User"

/-! ## Process-tree terminator (process_manager.py lines 88-176) -/

/-- Result of one external psutil call that can raise. -/
inductive CallRes where
  | ok
  | noSuch
  | err (msg : String)
  deriving DecidableEq

/-- Result of an `is_running()` query in the second fallback loop
(lines 161-169), where an exception is caught separately. -/
inductive RunRes where
  | running
  | notRunning
  | raises
  deriving DecidableEq

/-- Signalling / waiting events, in program order. -/
inductive Event where
  | termA (pid : Nat)
  | wait1 (timeout : ℚ)
  | killA (pid : Nat)
  | wait2 (timeout : ℚ)
  deriving DecidableEq

/-- Environment fixing the behaviour of every psutil call made by one
`terminate_process_tree` invocation.  Per-process behaviour is keyed by
pid.  `is_running` in the first `wait_procs` fallback (line 135) is
modelled as total (an exception there would escape the Python function).
The completion order inside a `wait_procs` result is modelled as
sublist order of the input list; no claim depends on the order of the
returned buckets. -/
structure Env where
  resolveRoot : CallRes
  childrenRes : Option (List Nat)
  reresolve : Nat → Bool
  termRes : Nat → Option String
  wait1Ok : Bool
  gone1 : Nat → Bool
  isRunning1 : Nat → Bool
  killRes : Nat → CallRes
  wait2Ok : Bool
  gone2 : Nat → Bool
  isRunning2 : Nat → RunRes

/-- `result` dict of `terminate_process_tree` (line 100). -/
structure Outcome where
  terminated : List Nat
  killed : List Nat
  failed : List (Nat × String)
  deriving DecidableEq

/-- `children = parent.children(recursive=True)`, with `children = []`
on exception (lines 109-112). -/
def discoveredChildren (env : Env) : List Nat :=
  env.childrenRes.getD []

/-- The children that re-resolve via `psutil.Process(c.pid)`
(lines 115-120); the others are skipped by `continue`. -/
def resolvedKids (env : Env) : List Nat :=
  (discoveredChildren env).filter env.reresolve

/-- `all_procs`: resolved children first, then the parent (line 121). -/
def allProcs (pid : Nat) (env : Env) : List Nat :=
  resolvedKids env ++ [pid]

/-- `failed` entries produced by the graceful loop (lines 124-128). -/
def gracefulFailed (pid : Nat) (env : Env) : List (Nat × String) :=
  (allProcs pid env).filterMap
    (fun p => (env.termRes p).map (fun m => (p, "terminate error: " ++ m)))

/-- `gone` of the first `wait_procs` (line 132); `gone = []` when it
raises (line 134). -/
def gone1List (pid : Nat) (env : Env) : List Nat :=
  if env.wait1Ok then (allProcs pid env).filter env.gone1 else []

/-- `alive` after the first wait: the complement of `gone` on success,
`[p for p in all_procs if p.is_running()]` on exception (lines 132-135). -/
def alive1List (pid : Nat) (env : Env) : List Nat :=
  if env.wait1Ok then (allProcs pid env).filter (fun p => ! env.gone1 p)
  else (allProcs pid env).filter env.isRunning1

/-- The `terminated` list after the kill loop: `gone` pids (lines
137-141) plus every alive process whose `kill()` raised
`NoSuchProcess` (lines 148-149). -/
def termAfterKill (pid : Nat) (env : Env) : List Nat :=
  gone1List pid env
    ++ (alive1List pid env).filter (fun p => decide (env.killRes p = .noSuch))

/-- `failed` entries from `kill()` raising a generic exception
(lines 150-151). -/
def killErrFailed (pid : Nat) (env : Env) : List (Nat × String) :=
  (alive1List pid env).filterMap
    (fun p => match env.killRes p with
      | .err m => some (p, "kill error: " ++ m)
      | _ => none)

/-- The raw `killed` list: on a successful second wait, the `gone2`
pids not already in `terminated` (lines 154-157); on exception, the
not-running pids not already in `terminated` (lines 161-165). -/
def killedRaw (pid : Nat) (env : Env) : List Nat :=
  let alive := alive1List pid env
  let tk := termAfterKill pid env
  if env.wait2Ok then
    (alive.filter env.gone2).filter (fun p => decide (p ∉ tk))
  else
    alive.filter (fun p => decide (env.isRunning2 p = .notRunning) && decide (p ∉ tk))

/-- The `failed` entries appended after the kill loop: survivors of the
second wait (lines 158-159), or, when the second wait raises, the
still-running / unqueryable processes (lines 161-169). -/
def failedTail (pid : Nat) (env : Env) : List (Nat × String) :=
  let alive := alive1List pid env
  if env.wait2Ok then
    (alive.filter (fun p => ! env.gone2 p)).map (fun p => (p, "still alive after kill"))
  else
    alive.filterMap (fun p => match env.isRunning2 p with
      | .running => some (p, "still alive after kill")
      | .raises => some (p, "unknown state")
      | .notRunning => none)

/-- The final clean-up (lines 171-174): drop falsy (zero) pids,
deduplicate keeping first occurrences, and remove from `killed` any pid
present in the cleaned `terminated`. -/
def cleanup (t k : List Nat) (f : List (Nat × String)) : Outcome :=
  let t2 := dedupFirst (t.filter (fun x => decide (x ≠ 0)))
  let k2 := dedupFirst (k.filter (fun x => decide (x ≠ 0) && decide (x ∉ t2)))
  ⟨t2, k2, f.filter (fun e => decide (e.1 ≠ 0))⟩

/-- The returned outcome of `terminate_process_tree` (lines 100-176).
The two early-return branches (lines 101-107) bypass the clean-up. -/
def outcomeOf (pid : Nat) (env : Env) : Outcome :=
  match env.resolveRoot with
  | .noSuch => ⟨[], [], []⟩
  | .err m => ⟨[], [], [(pid, "cannot access process: " ++ m)]⟩
  | .ok =>
    if (alive1List pid env).isEmpty then
      cleanup (gone1List pid env) [] (gracefulFailed pid env)
    else
      cleanup (termAfterKill pid env) (killedRaw pid env)
        (gracefulFailed pid env ++ killErrFailed pid env ++ failedTail pid env)

/-- The kill-phase part of the trace: present only when `alive` is
nonempty (line 144); one `kill()` attempt per alive process (lines
145-147) followed by the second `wait_procs(alive, timeout=3)`
call (line 154). -/
def escTrace (pid : Nat) (env : Env) : List Event :=
  let alive := alive1List pid env
  if alive.isEmpty then []
  else alive.map Event.killA ++ [Event.wait2 3]

/-- The event trace of one call: a `terminate()` attempt per member of
`all_procs` in list order (lines 124-126), then the first
`wait_procs(all_procs, timeout=timeout)` call (line 132), then the
kill phase.  The early-return branches perform no signalling. -/
def traceOf (pid : Nat) (timeout : ℚ) (env : Env) : List Event :=
  match env.resolveRoot with
  | .ok => (allProcs pid env).map Event.termA ++ [Event.wait1 timeout] ++ escTrace pid env
  | _ => []

/-- Shallow embedding of `terminate_process_tree(pid, timeout)`
(process_manager.py lines 88-176), returning the outcome together with
the event trace. -/
def terminate_process_tree (pid : Nat) (timeout : ℚ) (env : Env) : Outcome × List Event :=
  (outcomeOf pid env, traceOf pid timeout env)

/-- The timeouts of the second-wait events of a trace. -/
def secondaryWaits (tr : List Event) : List ℚ :=
  tr.filterMap (fun e => match e with | .wait2 q => some q | _ => none)

/-! ## Process snapshot provider (process_manager.py lines 41-86)

The enumeration yields, per process, either the attribute dict read at
line 56 or one of the two per-process failures the loop body can raise
and the handler at line 84 catches (`NoSuchProcess`, `AccessDenied`).
The inner `cpu_percent` and `threads` reads have their own handlers
(lines 60-63 and 68-71), modelled as `Option` fields.  CPU percentages
are carried as rationals.  The derived `mem_human` display string
(lines 17-22) is pure floating-point formatting of `mem` and is not
modelled (no claim mentions it). -/

inductive PFail where
  | noSuchProcess
  | accessDenied
  deriving DecidableEq

structure PInfo where
  pid : Option Nat
  name : Option String
  username : Option String
  memRss : Option Nat
  exe : Option String
  cmdline : Option (List String)
  cpu : Option ℚ
  threads : Option (List Nat)
  deriving DecidableEq

structure SnapEnv where
  procs : List (Except PFail PInfo)

/-- One entry of the returned snapshot (lines 72-83). -/
structure ProcEntry where
  pid : Nat
  name : String
  user : Option String
  cpu : ℚ
  mem : Nat
  category : String
  exe : Option String
  cmdline : List String
  threads : List Nat
  deriving DecidableEq

/-- Builds one snapshot entry from a successfully read attribute dict
(lines 57-83): `int(info.get('pid') or 0)`, `info.get('name') or
"<unknown>"` (the empty string is falsy in Python), `cpu = 0.0` when
`cpu_percent` raised, `rss` or `0`, `cmdline or []`, `threads = []`
when `p.threads()` raised. -/
def mkEntry (i : PInfo) : ProcEntry :=
  let pid := i.pid.getD 0
  let name := match i.name with
    | some s => if s = "" then "<unknown>" else s
    | none => "<unknown>"
  ⟨pid, name, i.username, i.cpu.getD 0, i.memRss.getD 0,
    categorize_process (pid : Int) (some name) i.username,
    i.exe, i.cmdline.getD [], i.threads.getD []⟩

/-- Shallow embedding of `fetch_processes_real_time` (lines 41-86): one
pass over the enumeration, appending an entry per readable process and
silently skipping a process whose read raised `NoSuchProcess` or
`AccessDenied` (lines 84-85).  The warm-up pass and 0.1s sleep
(lines 48-53) do not affect the returned value. -/
def fetch_processes_real_time (env : SnapEnv) : List ProcEntry :=
  env.procs.foldl
    (fun acc r => match r with
      | .ok i => acc ++ [mkEntry i]
      | .error _ => acc) []

/-! ## Port manager (port_manager.py) -/

/-- One entry of `psutil.net_connections(kind='inet')` as used at
line 24: `laddrPort` is `getattr(conn.laddr, 'port', None)` with `none`
also covering a falsy `conn.laddr`; `pid = 0` models both a `None` and
a zero `conn.pid` (both falsy). -/
structure Conn where
  laddrPort : Option Nat
  pid : Nat
  deriving DecidableEq

structure PortEnv where
  conns : Option (List Conn)
  resolveOk : Nat → Bool

/-- Shallow embedding of `find_processes_using_port(port)`
(port_manager.py lines 18-34), returning the pids of the deduplicated
process list.  `conns = none` models `net_connections` itself raising
(lines 28-29, `procs` stays empty); a failing `psutil.Process(conn.pid)`
(caught at lines 26-27) skips that connection.  The `unique` dict keeps
the first insertion position of each pid. -/
def find_processes_using_port (env : PortEnv) (port : Nat) : List Nat :=
  let procs := match env.conns with
    | none => []
    | some cs => cs.filterMap (fun c =>
        if c.laddrPort = some port ∧ c.pid ≠ 0 then
          (if env.resolveOk c.pid then some c.pid else none)
        else none)
  dedupFirst procs

/-! ## Operator input parsing (port_manager.py lines 44-54 and 108-116)

Python's `int(s)` on an already-stripped string: an optional sign
followed by a nonempty digit string in which single underscores may
appear between digits. -/

/-- Accepts the digit-part tail: digits, with single underscores that
must be followed by a digit. -/
def pyDigitsRest : List Char → Bool
  | [] => true
  | '_' :: c :: rest => c.isDigit && pyDigitsRest rest
  | c :: rest => c.isDigit && pyDigitsRest rest

/-- Accepts a nonempty Python integer digit string (underscores only
between digits). -/
def pyDigits : List Char → Bool
  | [] => false
  | c :: rest => c.isDigit && pyDigitsRest rest

/-- Numeric value of the digit characters. -/
def digitsVal (cs : List Char) : Nat :=
  (cs.filter Char.isDigit).foldl (fun a c => 10 * a + (c.toNat - 48)) 0

/-- `int(s)` for a stripped string: `none` models `ValueError`. -/
def parsePyInt (s : String) : Option Int :=
  match s.toList with
  | '+' :: rest => if pyDigits rest then some (digitsVal rest : Int) else none
  | '-' :: rest => if pyDigits rest then some (-(digitsVal rest : Int)) else none
  | cs => if pyDigits cs then some (digitsVal cs : Int) else none

/-- The port with which `free_port_interactive` (lines 36-54) invokes
the core listener lookup `find_processes_using_port` (line 54), if any:
an empty stripped input returns early (lines 46-48), a `ValueError`
from `int(s)` returns early (lines 50-52), and any successfully parsed
integer is passed straight to the lookup — there is no range check in
this flow. -/
def free_port_requested (s : String) : Option Int :=
  if s = "" then none else parsePyInt s

/-- The range with which `show_ports_range` (lines 106-116) enters its
port-scanning loop, if any: both inputs must parse as integers
(lines 108-112) and the range must satisfy
`start ≥ 1 ∧ end ≤ 65535 ∧ start ≤ end` (lines 114-116). -/
def show_ports_range_requested (s1 s2 : String) : Option (Int × Int) :=
  match parsePyInt s1, parsePyInt s2 with
  | some a, some b => if a < 1 ∨ b > 65535 ∨ a > b then none else some (a, b)
  | _, _ => none

/-! ## Concrete environments used as witnesses and counterexamples -/

/-- Root pid does not resolve (`psutil.NoSuchProcess`). -/
def envRootGone : Env :=
  ⟨CallRes.noSuch, none, fun _ => true, fun _ => none, true, fun _ => true,
    fun _ => false, fun _ => CallRes.ok, true, fun _ => true, fun _ => RunRes.notRunning⟩

/-- Root pid resolution raises a generic access error. -/
def envRootErr : Env :=
  ⟨CallRes.err "boom", none, fun _ => true, fun _ => none, true, fun _ => true,
    fun _ => false, fun _ => CallRes.ok, true, fun _ => true, fun _ => RunRes.notRunning⟩

/-- Root 7 with children 10 and 11; 10 exits gracefully within the
primary wait, 11 survives it and exits after the forced kill. -/
def envGraceKill : Env :=
  ⟨CallRes.ok, some [10, 11], fun _ => true, fun _ => none, true,
    fun p => p ≠ 11, fun _ => false, fun _ => CallRes.ok, true,
    fun _ => true, fun _ => RunRes.notRunning⟩

/-- Root 5 (no children) whose `terminate()` raises `AccessDenied` but
which is nevertheless reported gone by the primary wait: its pid lands
in both `failed` and `terminated`. -/
def envTermFailGone : Env :=
  ⟨CallRes.ok, some [], fun _ => true,
    fun p => if p = 5 then some "AccessDenied" else none, true,
    fun _ => true, fun _ => false, fun _ => CallRes.ok, true,
    fun _ => true, fun _ => RunRes.notRunning⟩

/-- Root 7 (no children) surviving the primary wait, so the kill phase
and the secondary wait run. -/
def envEscalate : Env :=
  ⟨CallRes.ok, some [], fun _ => true, fun _ => none, true,
    fun _ => false, fun _ => false, fun _ => CallRes.ok, true,
    fun _ => true, fun _ => RunRes.notRunning⟩

/-- Root 7 with child 11; both survive the primary wait and the kill of
11 raises `NoSuchProcess`. -/
def envKillNoSuch : Env :=
  ⟨CallRes.ok, some [11], fun _ => true, fun _ => none, true,
    fun _ => false, fun _ => false,
    fun p => if p = 11 then CallRes.noSuch else CallRes.ok, true,
    fun _ => true, fun _ => RunRes.notRunning⟩

/-- Connection table with two connections of pid 5 on port 80, one of
pid 6 on port 81 and one pid-less entry on port 80. -/
def envPortTable : PortEnv :=
  ⟨some [⟨some 80, 5⟩, ⟨some 80, 5⟩, ⟨some 81, 6⟩, ⟨some 80, 0⟩], fun _ => true⟩

/-- Snapshot enumeration with one readable process, one vanished
process, and one readable process with no accessible attributes. -/
def envSnap : SnapEnv :=
  ⟨[Except.ok ⟨some 7, some "x", some "bob", some 100, none, some [], some 5, some [1, 2]⟩,
    Except.error PFail.noSuchProcess,
    Except.ok ⟨some 9, none, none, none, none, none, none, none⟩]⟩

/-! ## Helper lemmas -/

theorem mem_dedupFirstAux {a : Nat} :
    ∀ {l seen : List Nat}, a ∈ dedupFirstAux seen l ↔ a ∈ l ∧ a ∉ seen := by
  intro l
  induction l with
  | nil => intro seen; simp [dedupFirstAux]
  | cons x xs ih =>
    intro seen
    rw [dedupFirstAux]
    by_cases hx : x ∈ seen
    · rw [if_pos hx, ih]
      constructor
      · rintro ⟨hm, hs⟩
        exact ⟨List.mem_cons_of_mem _ hm, hs⟩
      · rintro ⟨hm, hs⟩
        rcases List.mem_cons.1 hm with h | h
        · subst h; exact absurd hx hs
        · exact ⟨h, hs⟩
    · rw [if_neg hx]
      by_cases hax : a = x
      · subst hax; simp [hx]
      · simp only [List.mem_cons, ih, hax, false_or, not_or]

theorem mem_dedupFirst {a : Nat} {l : List Nat} : a ∈ dedupFirst l ↔ a ∈ l := by
  simp [dedupFirst, mem_dedupFirstAux]

theorem nodup_dedupFirstAux :
    ∀ (l seen : List Nat), (dedupFirstAux seen l).Nodup := by
  intro l
  induction l with
  | nil => intro seen; simp [dedupFirstAux]
  | cons x xs ih =>
    intro seen
    rw [dedupFirstAux]
    by_cases hx : x ∈ seen
    · rw [if_pos hx]; exact ih seen
    · rw [if_neg hx]
      refine List.nodup_cons.2 ⟨?_, ih (x :: seen)⟩
      intro hmem
      exact (mem_dedupFirstAux.1 hmem).2 (List.mem_cons_self _ _)

theorem nodup_dedupFirst (l : List Nat) : (dedupFirst l).Nodup :=
  nodup_dedupFirstAux l []

theorem cleanup_terminated_mem {x : Nat} {t k : List Nat} {f : List (Nat × String)} :
    x ∈ (cleanup t k f).terminated ↔ x ∈ t ∧ x ≠ 0 := by
  simp [cleanup, mem_dedupFirst, List.mem_filter]

theorem cleanup_killed_mem {x : Nat} {t k : List Nat} {f : List (Nat × String)} :
    x ∈ (cleanup t k f).killed ↔ x ∈ k ∧ x ≠ 0 ∧ x ∉ (cleanup t k f).terminated := by
  simp only [cleanup, mem_dedupFirst, List.mem_filter, Bool.and_eq_true,
    decide_eq_true_eq]

theorem cleanup_failed_mem {e : Nat × String} {t k : List Nat} {f : List (Nat × String)} :
    e ∈ (cleanup t k f).failed ↔ e ∈ f ∧ e.1 ≠ 0 := by
  simp [cleanup, List.mem_filter]

theorem cleanup_terminated_nodup (t k : List Nat) (f : List (Nat × String)) :
    (cleanup t k f).terminated.Nodup :=
  nodup_dedupFirst _

theorem cleanup_killed_nodup (t k : List Nat) (f : List (Nat × String)) :
    (cleanup t k f).killed.Nodup :=
  nodup_dedupFirst _

/-! ## Claim theorems -/

/-- **C3**: for a root pid that does not resolve to a live process,
`terminate_process_tree` returns an outcome with all three buckets
empty; if resolution raises a non-vanished access error, the outcome is
exactly one `failed` entry for the root pid with empty
`terminated`/`killed`, and no enumeration or signalling happens (the
trace is empty). -/
theorem terminate_tree_unresolved_root (pid : Nat) (t : ℚ) (env : Env) :
    (env.resolveRoot = CallRes.noSuch →
      terminate_process_tree pid t env = (⟨[], [], []⟩, []))
    ∧ (∀ m, env.resolveRoot = CallRes.err m →
      terminate_process_tree pid t env
        = (⟨[], [], [(pid, "cannot access process: " ++ m)]⟩, [])) := by
  constructor
  · intro h
    simp [terminate_process_tree, outcomeOf, traceOf, h]
  · intro m h
    simp [terminate_process_tree, outcomeOf, traceOf, h]

/-- Witness for **C3** at pid 7: an already-gone root gives three empty
buckets; an access error on resolution gives the single failed entry. -/
theorem terminate_tree_unresolved_root_witness :
    terminate_process_tree 7 5 envRootGone = (⟨[], [], []⟩, [])
    ∧ terminate_process_tree 7 5 envRootErr
        = (⟨[], [], [(7, "cannot access process: boom")]⟩, []) :=
  ⟨(terminate_tree_unresolved_root 7 5 envRootGone).1 rfl,
   (terminate_tree_unresolved_root 7 5 envRootErr).2 "boom" rfl⟩

/-- **C6**: `categorize_process` is total (it is a Lean function) and
applies its rules in order, first match wins: pid 0 gives the idle
pseudo-category whatever the other arguments are; any pid ≤ 4 gives
`"System"`; an absent owner gives `"Background"` before the
name-substring rule is consulted; a name containing `"service"`
(case-insensitively) or a privileged system owner gives `"Services"`;
anything else gives `"User"`. -/
theorem categorize_first_match (p : Int) (n u : Option String) :
    categorize_process 0 n u = "System Idle"
    ∧ (p ≠ 0 → p ≤ 4 → categorize_process p n u = "System")
    ∧ (4 < p → categorize_process p n none = "Background")
    ∧ (∀ s, 4 < p →
        (strContains (pyLower (n.getD "")) "service"
          ∨ pyUpper s = "SYSTEM"
          ∨ pyStartsWith (pyUpper s) "NT AUTHORITY") →
        categorize_process p n (some s) = "Services")
    ∧ (∀ s, 4 < p →
        ¬(strContains (pyLower (n.getD "")) "service"
          ∨ pyUpper s = "SYSTEM"
          ∨ pyStartsWith (pyUpper s) "NT AUTHORITY") →
        categorize_process p n (some s) = "User") := by
  refine ⟨?_, ?_, ?_, ?_, ?_⟩
  · simp [categorize_process]
  · intro h1 h2
    simp [categorize_process, h1, h2]
  · intro h
    simp [categorize_process, show p ≠ 0 by omega, show ¬ p ≤ 4 by omega]
  · intro s h hc
    have h1 : p ≠ 0 := by omega
    have h2 : ¬ p ≤ 4 := by omega
    simp [categorize_process, h1, h2, hc]
  · intro s h hc
    have h1 : p ≠ 0 := by omega
    have h2 : ¬ p ≤ 4 := by omega
    simp [categorize_process, h1, h2, hc]

/-- Witness for **C6**: each of the five rules fires at a concrete
input; in particular pid 4 with a service-style name and no owner is
still `"System"`, and the name rule is case-insensitive. -/
theorem categorize_first_match_witness :
    categorize_process 0 (some "x") (some "bob") = "System Idle"
    ∧ categorize_process 4 (some "MyService") none = "System"
    ∧ categorize_process 100 (some "MyService") none = "Background"
    ∧ categorize_process 100 (some "MyService") (some "bob") = "Services"
    ∧ categorize_process 100 (some "x") (some "bob") = "User" :=
  ⟨(categorize_first_match 1 (some "x") (some "bob")).1,
   (categorize_first_match 4 (some "MyService") none).2.1 (by decide) (by decide),
   (categorize_first_match 100 (some "MyService") none).2.2.1 (by decide),
   (categorize_first_match 100 (some "MyService") (some "bob")).2.2.2.1 "bob"
     (by decide) (by decide),
   (categorize_first_match 100 (some "x") (some "bob")).2.2.2.2 "bob"
     (by decide) (by decide)⟩

/-- `secondaryWaits` distributes over append. -/
theorem secondaryWaits_append (a b : List Event) :
    secondaryWaits (a ++ b) = secondaryWaits a ++ secondaryWaits b :=
  List.filterMap_append a b _

/-- Graceful-termination events contribute no secondary wait. -/
theorem secondaryWaits_termA_map (l : List Nat) :
    secondaryWaits (l.map Event.termA) = [] := by
  induction l with
  | nil => rfl
  | cons x xs ih => simp [secondaryWaits, List.filterMap_cons, ih]

/-- Kill events contribute no secondary wait. -/
theorem secondaryWaits_killA_map (l : List Nat) :
    secondaryWaits (l.map Event.killA) = [] := by
  induction l with
  | nil => rfl
  | cons x xs ih => simp [secondaryWaits, List.filterMap_cons, ih]

/-- **C5 (amended)**: the secondary wait applied to forced-kill
survivors is the constant 3 seconds, independent of the primary timeout
(either the escalation phase never runs and there is no secondary wait,
or exactly one secondary wait of 3 seconds occurs).  It equals 3/5 of
the primary timeout only for the default primary timeout of 5. -/
theorem secondary_wait_constant (pid : Nat) (t : ℚ) (env : Env) :
    secondaryWaits (terminate_process_tree pid t env).2 = []
    ∨ secondaryWaits (terminate_process_tree pid t env).2 = [3] := by
  cases henv : env.resolveRoot with
  | ok =>
    by_cases halive : (alive1List pid env).isEmpty
    · left
      simp only [terminate_process_tree, traceOf, henv, escTrace, if_pos halive,
        secondaryWaits_append, secondaryWaits_termA_map]
      rfl
    · right
      simp only [terminate_process_tree, traceOf, henv, escTrace, if_neg halive,
        secondaryWaits_append, secondaryWaits_termA_map, secondaryWaits_killA_map]
      rfl
  | noSuch =>
    left
    simp only [terminate_process_tree, traceOf, henv]
    rfl
  | err m =>
    left
    simp only [terminate_process_tree, traceOf, henv]
    rfl

/-- **C5** counterexample: with a primary timeout of 10 the escalation
phase still waits 3 seconds, which is not 3/5 of the primary timeout. -/
theorem secondary_wait_ratio_counterexample :
    secondaryWaits (terminate_process_tree 7 10 envEscalate).2 = [3]
    ∧ (3 : ℚ) ≠ 3 / 5 * 10 := by
  constructor
  · decide
  · norm_num

/-- **C7**: the snapshot operation is a total function (it never fails
as a whole); every process whose attribute read raised `NoSuchProcess`
or `AccessDenied` is omitted — the result is exactly the entries built
from the readable processes, in enumeration order, and the length
bookkeeping shows one omission per failed process. -/
theorem snapshot_skips_failures (env : SnapEnv) :
    fetch_processes_real_time env
      = env.procs.filterMap (fun r => match r with
          | .ok i => some (mkEntry i)
          | .error _ => none)
    ∧ (fetch_processes_real_time env).length
        + env.procs.countP (fun r => match r with
            | .ok _ => false
            | .error _ => true)
      = env.procs.length := by
  have hfold : ∀ (l : List (Except PFail PInfo)) (acc : List ProcEntry),
      l.foldl (fun acc r => match r with
        | .ok i => acc ++ [mkEntry i]
        | .error _ => acc) acc
      = acc ++ l.filterMap (fun r => match r with
          | .ok i => some (mkEntry i)
          | .error _ => none) := by
    intro l
    induction l with
    | nil => intro acc; simp
    | cons r rs ih =>
      intro acc
      cases r with
      | ok i => simp [List.filterMap_cons, ih]
      | error e => simp [List.filterMap_cons, ih]
  have heq : fetch_processes_real_time env
      = env.procs.filterMap (fun r => match r with
          | .ok i => some (mkEntry i)
          | .error _ => none) := by
    rw [fetch_processes_real_time, hfold]
    simp
  refine ⟨heq, ?_⟩
  rw [heq]
  clear heq hfold
  generalize env.procs = l
  induction l with
  | nil => rfl
  | cons r rs ih =>
    cases r with
    | ok i =>
      simp [List.filterMap_cons, List.countP_cons]
      all_goals omega
    | error e =>
      simp [List.filterMap_cons, List.countP_cons]
      all_goals omega

/-- **C8**: when the connection table is readable and every matching
owning pid resolves to a process object, `find_processes_using_port`
returns exactly the pids owning an inet connection whose local port
equals the requested port and which are nonzero, with at most one entry
per pid; in particular, a port with no such connections yields the
empty sequence. -/
theorem listeners_exact (cs : List Conn) (env : PortEnv) (port : Nat)
    (hconns : env.conns = some cs)
    (hres : ∀ c ∈ cs, c.laddrPort = some port → c.pid ≠ 0 →
      env.resolveOk c.pid = true) :
    (∀ x, x ∈ find_processes_using_port env port
        ↔ x ≠ 0 ∧ ∃ c ∈ cs, c.laddrPort = some port ∧ c.pid = x)
    ∧ (find_processes_using_port env port).Nodup := by
  constructor
  · intro x
    simp only [find_processes_using_port, hconns, mem_dedupFirst,
      List.mem_filterMap]
    constructor
    · rintro ⟨c, hcmem, hc⟩
      by_cases h1 : c.laddrPort = some port ∧ c.pid ≠ 0
      · rw [if_pos h1] at hc
        by_cases h2 : env.resolveOk c.pid = true
        · rw [if_pos h2] at hc
          cases hc
          exact ⟨h1.2, c, hcmem, h1.1, rfl⟩
        · rw [if_neg h2] at hc
          cases hc
      · rw [if_neg h1] at hc
        cases hc
    · rintro ⟨hx0, c, hcmem, hport, hpid⟩
      refine ⟨c, hcmem, ?_⟩
      have hpid0 : c.pid ≠ 0 := by rw [hpid]; exact hx0
      rw [if_pos ⟨hport, hpid0⟩, if_pos (hres c hcmem hport hpid0)]
      exact congrArg some hpid
  · exact nodup_dedupFirst _

/-- Witness for **C8**: on the concrete table `envPortTable` (two
connections of pid 5 on port 80, one of pid 6 on port 81, one pid-less
on port 80), port 80 yields pid 5 once, nothing for pid 0, and port 99
yields nothing. -/
theorem listeners_exact_witness :
    5 ∈ find_processes_using_port envPortTable 80
    ∧ (0 ∈ find_processes_using_port envPortTable 80 → False)
    ∧ (find_processes_using_port envPortTable 80).Nodup
    ∧ (6 ∈ find_processes_using_port envPortTable 99 → False) := by
  have h80 := listeners_exact
    [⟨some 80, 5⟩, ⟨some 80, 5⟩, ⟨some 81, 6⟩, ⟨some 80, 0⟩]
    envPortTable 80 rfl (by decide)
  have h99 := listeners_exact
    [⟨some 80, 5⟩, ⟨some 80, 5⟩, ⟨some 81, 6⟩, ⟨some 80, 0⟩]
    envPortTable 99 rfl (by decide)
  refine ⟨(h80.1 5).2 (by decide), ?_, h80.2, ?_⟩
  · intro h0
    exact absurd ((h80.1 0).1 h0) (by decide)
  · intro h6
    exact absurd ((h99.1 6).1 h6) (by decide)

/-- **C9** counterexample: the operator input `"70000"` parses as an
integer, `free_port_interactive` applies no range check, and the core
listener lookup is invoked with port 70000, which is outside 1–65535 —
so an out-of-range port is *not* rejected before a core operation. -/
theorem invalid_port_reaches_lookup :
    free_port_requested "70000" = some 70000
    ∧ ¬((70000 : Int) ≤ 65535) := by
  constructor
  · decide
  · decide

/-- **C9 (amended)**: non-numeric operator input is rejected before any
core operation in both flows, and `show_ports_range` additionally
rejects ranges outside 1–65535, but `free_port_interactive` performs no
range check: any input parsing as an integer — in range or not — is
passed straight to the listener lookup. -/
theorem input_validation_scope (s s1 s2 : String) :
    (parsePyInt s = none → free_port_requested s = none)
    ∧ (∀ p, free_port_requested s = some p → parsePyInt s = some p)
    ∧ (parsePyInt s1 = none → show_ports_range_requested s1 s2 = none)
    ∧ (parsePyInt s2 = none → show_ports_range_requested s1 s2 = none)
    ∧ (∀ a b, show_ports_range_requested s1 s2 = some (a, b) →
        parsePyInt s1 = some a ∧ parsePyInt s2 = some b
        ∧ 1 ≤ a ∧ a ≤ b ∧ b ≤ 65535) := by
  refine ⟨?_, ?_, ?_, ?_, ?_⟩
  · intro h
    simp [free_port_requested, h]
  · intro p h
    rw [free_port_requested] at h
    split_ifs at h
    exact h
  · intro h
    simp [show_ports_range_requested, h]
  · intro h
    cases h1 : parsePyInt s1 with
    | none => simp [show_ports_range_requested, h1]
    | some a => simp [show_ports_range_requested, h1, h]
  · intro a b h
    rw [show_ports_range_requested] at h
    cases h1 : parsePyInt s1 with
    | none => rw [h1] at h; cases h
    | some a2 =>
      cases h2 : parsePyInt s2 with
      | none => rw [h1, h2] at h; cases h
      | some b2 =>
        rw [h1, h2] at h
        dsimp only at h
        split_ifs at h with hcond
        cases h
        push_neg at hcond
        exact ⟨rfl, rfl, by omega, by omega, by omega⟩

/-- Witness for **C9 (amended)**: the non-numeric input `"abc"` is
rejected in the port-freeing flow, and the in-range request `5..10` is
what the scanning loop receives. -/
theorem input_validation_scope_witness :
    free_port_requested "abc" = none
    ∧ (parsePyInt "5" = some 5 ∧ parsePyInt "10" = some 10
        ∧ 1 ≤ (5 : Int) ∧ (5 : Int) ≤ 10 ∧ (10 : Int) ≤ 65535) :=
  ⟨(input_validation_scope "abc" "5" "10").1 (by decide),
   (input_validation_scope "abc" "5" "10").2.2.2.2 5 10 (by decide)⟩

/-! ### Structural lemmas about the terminator phases -/

theorem mem_allProcs_cases {x pid : Nat} {env : Env} (h : x ∈ allProcs pid env) :
    x = pid ∨ x ∈ discoveredChildren env := by
  rcases List.mem_append.1 h with h | h
  · exact Or.inr (List.mem_filter.1 h).1
  · rcases List.mem_cons.1 h with h | h
    · exact Or.inl h
    · cases h

theorem gone1_subset {x pid : Nat} {env : Env} (h : x ∈ gone1List pid env) :
    x ∈ allProcs pid env := by
  rw [gone1List] at h
  split_ifs at h
  · exact (List.mem_filter.1 h).1
  · cases h

theorem alive1_subset {x pid : Nat} {env : Env} (h : x ∈ alive1List pid env) :
    x ∈ allProcs pid env := by
  rw [alive1List] at h
  split_ifs at h
  · exact (List.mem_filter.1 h).1
  · exact (List.mem_filter.1 h).1

theorem termAfterKill_subset {x pid : Nat} {env : Env}
    (h : x ∈ termAfterKill pid env) : x ∈ allProcs pid env := by
  rcases List.mem_append.1 h with h | h
  · exact gone1_subset h
  · exact alive1_subset (List.mem_filter.1 h).1

theorem killedRaw_subset {x pid : Nat} {env : Env}
    (h : x ∈ killedRaw pid env) : x ∈ allProcs pid env := by
  rw [killedRaw] at h
  split_ifs at h
  · exact alive1_subset (List.mem_filter.1 (List.mem_filter.1 h).1).1
  · exact alive1_subset (List.mem_filter.1 h).1

theorem gracefulFailed_subset {e : Nat × String} {pid : Nat} {env : Env}
    (h : e ∈ gracefulFailed pid env) : e.1 ∈ allProcs pid env := by
  rcases List.mem_filterMap.1 h with ⟨p, hp, hmap⟩
  cases ht : env.termRes p with
  | none => rw [ht] at hmap; cases hmap
  | some m =>
    rw [ht] at hmap
    cases hmap
    exact hp

theorem killErrFailed_subset {e : Nat × String} {pid : Nat} {env : Env}
    (h : e ∈ killErrFailed pid env) : e.1 ∈ allProcs pid env := by
  rcases List.mem_filterMap.1 h with ⟨p, hp, hmap⟩
  cases hk : env.killRes p with
  | ok => rw [hk] at hmap; cases hmap
  | noSuch => rw [hk] at hmap; cases hmap
  | err m =>
    rw [hk] at hmap
    cases hmap
    exact alive1_subset hp

theorem failedTail_subset {e : Nat × String} {pid : Nat} {env : Env}
    (h : e ∈ failedTail pid env) : e.1 ∈ allProcs pid env := by
  rw [failedTail] at h
  split_ifs at h
  · rcases List.mem_map.1 h with ⟨p, hp, hmap⟩
    cases hmap
    exact alive1_subset (List.mem_filter.1 hp).1
  · rcases List.mem_filterMap.1 h with ⟨p, hp, hmap⟩
    cases hr : env.isRunning2 p with
    | running => rw [hr] at hmap; cases hmap; exact alive1_subset hp
    | notRunning => rw [hr] at hmap; cases hmap
    | raises => rw [hr] at hmap; cases hmap; exact alive1_subset hp

/-- Once the root resolves, the returned outcome is a cleaned-up
triple. -/
theorem outcomeOf_eq_cleanup (pid : Nat) (env : Env)
    (hroot : env.resolveRoot = CallRes.ok) :
    ∃ a b c, outcomeOf pid env = cleanup a b c := by
  simp only [outcomeOf, hroot]
  by_cases halive : (alive1List pid env).isEmpty
  · exact ⟨_, _, _, if_pos halive⟩
  · exact ⟨_, _, _, if_neg halive⟩

/-- Everything the clean-up step guarantees of its output. -/
theorem cleanup_invariants (t k : List Nat) (f : List (Nat × String)) :
    (cleanup t k f).terminated.Nodup ∧ (cleanup t k f).killed.Nodup
    ∧ (∀ x ∈ (cleanup t k f).killed, x ∉ (cleanup t k f).terminated)
    ∧ 0 ∉ (cleanup t k f).terminated ∧ 0 ∉ (cleanup t k f).killed
    ∧ ∀ e ∈ (cleanup t k f).failed, e.1 ≠ 0 := by
  refine ⟨nodup_dedupFirst _, nodup_dedupFirst _, ?_, ?_, ?_, ?_⟩
  · intro x hx
    exact (cleanup_killed_mem.1 hx).2.2
  · intro h0
    exact (cleanup_terminated_mem.1 h0).2 rfl
  · intro h0
    exact (cleanup_killed_mem.1 h0).2.1 rfl
  · intro e he
    exact (cleanup_failed_mem.1 he).2

/-- When both waits succeed, every member of `all_procs` with a nonzero
pid lands in at least one outcome bucket. -/
theorem coverage_helper (pid : Nat) (env : Env)
    (hroot : env.resolveRoot = CallRes.ok)
    (hw1 : env.wait1Ok = true) (hw2 : env.wait2Ok = true)
    (p : Nat) (hp : p ∈ allProcs pid env) (hp0 : p ≠ 0) :
    p ∈ (outcomeOf pid env).terminated ∨ p ∈ (outcomeOf pid env).killed
    ∨ ∃ m, (p, m) ∈ (outcomeOf pid env).failed := by
  cases hb : env.gone1 p with
  | true =>
    have hgone : p ∈ gone1List pid env := by
      rw [gone1List, if_pos hw1]
      exact List.mem_filter.2 ⟨hp, hb⟩
    simp only [outcomeOf, hroot]
    by_cases halive : (alive1List pid env).isEmpty
    · rw [if_pos halive]
      exact Or.inl (cleanup_terminated_mem.2 ⟨hgone, hp0⟩)
    · rw [if_neg halive]
      exact Or.inl (cleanup_terminated_mem.2 ⟨List.mem_append_left _ hgone, hp0⟩)
  | false =>
    have hal : p ∈ alive1List pid env := by
      rw [alive1List, if_pos hw1]
      exact List.mem_filter.2 ⟨hp, by simp [hb]⟩
    have halive : ¬ (alive1List pid env).isEmpty = true := by
      cases hl : alive1List pid env with
      | nil => rw [hl] at hal; cases hal
      | cons a l => simp [hl]
    simp only [outcomeOf, hroot, if_neg halive]
    cases hk : env.killRes p with
    | noSuch =>
      refine Or.inl (cleanup_terminated_mem.2 ⟨?_, hp0⟩)
      exact List.mem_append_right _ (List.mem_filter.2 ⟨hal, by simp [hk]⟩)
    | err m =>
      refine Or.inr (Or.inr ⟨"kill error: " ++ m, cleanup_failed_mem.2 ⟨?_, hp0⟩⟩)
      refine List.mem_append.2 (Or.inl (List.mem_append.2 (Or.inr ?_)))
      exact List.mem_filterMap.2 ⟨p, hal, by rw [hk]⟩
    | ok =>
      cases hg2 : env.gone2 p with
      | true =>
        by_cases htk : p ∈ termAfterKill pid env
        · exact Or.inl (cleanup_terminated_mem.2 ⟨htk, hp0⟩)
        · refine Or.inr (Or.inl (cleanup_killed_mem.2 ⟨?_, hp0, ?_⟩))
          · simp only [killedRaw, hw2, if_true]
            exact List.mem_filter.2 ⟨List.mem_filter.2 ⟨hal, hg2⟩, by simp [htk]⟩
          · intro hct
            exact htk (cleanup_terminated_mem.1 hct).1
      | false =>
        refine Or.inr (Or.inr ⟨"still alive after kill",
          cleanup_failed_mem.2 ⟨?_, hp0⟩⟩)
        refine List.mem_append.2 (Or.inr ?_)
        simp only [failedTail, hw2, if_true]
        exact List.mem_map.2 ⟨p, List.mem_filter.2 ⟨hal, by simp [hg2]⟩, rfl⟩

/-- **C4**: in the escalation phase, every alive process whose forced
kill raises the no-longer-exists condition is recorded in the
`terminated` bucket (credited to the graceful phase) and never in the
`killed` bucket. -/
theorem kill_nosuch_credited (pid : Nat) (t : ℚ) (env : Env) (p : Nat)
    (hroot : env.resolveRoot = CallRes.ok)
    (hp : p ∈ alive1List pid env) (hp0 : p ≠ 0)
    (hkill : env.killRes p = CallRes.noSuch) :
    p ∈ (terminate_process_tree pid t env).1.terminated
    ∧ p ∉ (terminate_process_tree pid t env).1.killed := by
  have halive : ¬ (alive1List pid env).isEmpty = true := by
    cases hl : alive1List pid env with
    | nil => rw [hl] at hp; cases hp
    | cons a l => simp [hl]
  have htk : p ∈ termAfterKill pid env :=
    List.mem_append_right _ (List.mem_filter.2 ⟨hp, by simp [hkill]⟩)
  simp only [terminate_process_tree, outcomeOf, hroot, if_neg halive]
  constructor
  · exact cleanup_terminated_mem.2 ⟨htk, hp0⟩
  · intro hk
    exact (cleanup_killed_mem.1 hk).2.2 (cleanup_terminated_mem.2 ⟨htk, hp0⟩)

/-- Witness for **C4**: in `envKillNoSuch` the child 11 survives the
primary wait, its `kill()` raises `NoSuchProcess`, and it ends up in
`terminated`, not `killed`. -/
theorem kill_nosuch_credited_witness :
    11 ∈ (terminate_process_tree 7 5 envKillNoSuch).1.terminated
    ∧ 11 ∉ (terminate_process_tree 7 5 envKillNoSuch).1.killed :=
  kill_nosuch_credited 7 5 envKillNoSuch 11 rfl (by decide) (by decide) rfl

/-- **C2**: within one call whose root resolves, the trace starts with
the graceful-termination attempts of all resolved descendants, then the
root's graceful-termination attempt, then the full primary wait — so
every descendant receives its graceful request strictly before the
root, and any forced-kill event can only occur after the primary
wait. -/
theorem root_signalled_last (pid : Nat) (t : ℚ) (env : Env)
    (hroot : env.resolveRoot = CallRes.ok) :
    ∃ tail, (terminate_process_tree pid t env).2
      = (resolvedKids env).map Event.termA
        ++ Event.termA pid :: Event.wait1 t :: tail := by
  refine ⟨escTrace pid env, ?_⟩
  simp only [terminate_process_tree, traceOf, hroot, allProcs, List.map_append]
  simp

/-- Witness for **C2**: the concrete tree of `envGraceKill` (root 7,
descendants 10 and 11) produces exactly this trace shape. -/
theorem root_signalled_last_witness :
    ∃ tail, (terminate_process_tree 7 5 envGraceKill).2
      = (resolvedKids envGraceKill).map Event.termA
        ++ Event.termA 7 :: Event.wait1 5 :: tail :=
  root_signalled_last 7 5 envGraceKill rfl

/-- **C10**: every outcome that goes through the final clean-up step
(i.e. whose root resolved) has a duplicate-free `terminated` list, a
duplicate-free `killed` list containing no pid also present in
`terminated`, no zero pid in either list, and no zero pid in any
`failed` entry.  (A Python `None` pid is falsy exactly like 0; the
model carries pids as naturals with 0 for both.) -/
theorem outcome_buckets_clean (pid : Nat) (t : ℚ) (env : Env)
    (hroot : env.resolveRoot = CallRes.ok) :
    (terminate_process_tree pid t env).1.terminated.Nodup
    ∧ (terminate_process_tree pid t env).1.killed.Nodup
    ∧ (∀ x ∈ (terminate_process_tree pid t env).1.killed,
        x ∉ (terminate_process_tree pid t env).1.terminated)
    ∧ 0 ∉ (terminate_process_tree pid t env).1.terminated
    ∧ 0 ∉ (terminate_process_tree pid t env).1.killed
    ∧ ∀ e ∈ (terminate_process_tree pid t env).1.failed, e.1 ≠ 0 := by
  obtain ⟨a, b, c, heq⟩ := outcomeOf_eq_cleanup pid env hroot
  simp only [terminate_process_tree]
  rw [heq]
  exact cleanup_invariants a b c

/-- Witness for **C10** on the concrete tree of `envGraceKill`. -/
theorem outcome_buckets_clean_witness :
    (terminate_process_tree 7 5 envGraceKill).1.terminated.Nodup
    ∧ (terminate_process_tree 7 5 envGraceKill).1.killed.Nodup
    ∧ (∀ x ∈ (terminate_process_tree 7 5 envGraceKill).1.killed,
        x ∉ (terminate_process_tree 7 5 envGraceKill).1.terminated)
    ∧ 0 ∉ (terminate_process_tree 7 5 envGraceKill).1.terminated
    ∧ 0 ∉ (terminate_process_tree 7 5 envGraceKill).1.killed
    ∧ ∀ e ∈ (terminate_process_tree 7 5 envGraceKill).1.failed, e.1 ≠ 0 :=
  outcome_buckets_clean 7 5 envGraceKill rfl

/-- **C1** counterexample: the three buckets are *not* always pairwise
disjoint.  In `envTermFailGone` the root's `terminate()` raises (one
`failed` entry) yet the primary wait still reports it gone (one
`terminated` entry), so pid 5 appears in both `terminated` and
`failed` — and hence also in more than one bucket, contradicting the
"exactly one bucket" reading. -/
theorem buckets_overlap_counterexample :
    5 ∈ (terminate_process_tree 5 5 envTermFailGone).1.terminated
    ∧ (5, "terminate error: AccessDenied")
        ∈ (terminate_process_tree 5 5 envTermFailGone).1.failed :=
  ⟨by decide, by decide⟩

/-- **C1 (amended)**: `terminated` and `killed` are disjoint (but
`failed` may overlap either); the pids of all three buckets are
contained in {root} ∪ discovered descendants; and when the root
resolves and neither wait raises, every member of the discovered tree
that re-resolved and has a nonzero pid appears in at least one
bucket. -/
theorem buckets_disjointness_amended (pid : Nat) (t : ℚ) (env : Env) :
    (∀ x ∈ (terminate_process_tree pid t env).1.killed,
        x ∉ (terminate_process_tree pid t env).1.terminated)
    ∧ (∀ x ∈ (terminate_process_tree pid t env).1.terminated,
        x = pid ∨ x ∈ discoveredChildren env)
    ∧ (∀ x ∈ (terminate_process_tree pid t env).1.killed,
        x = pid ∨ x ∈ discoveredChildren env)
    ∧ (∀ e ∈ (terminate_process_tree pid t env).1.failed,
        e.1 = pid ∨ e.1 ∈ discoveredChildren env)
    ∧ (env.resolveRoot = CallRes.ok → env.wait1Ok = true → env.wait2Ok = true →
        ∀ p ∈ allProcs pid env, p ≠ 0 →
          p ∈ (terminate_process_tree pid t env).1.terminated
          ∨ p ∈ (terminate_process_tree pid t env).1.killed
          ∨ ∃ m, (p, m) ∈ (terminate_process_tree pid t env).1.failed) := by
  simp only [terminate_process_tree]
  refine ⟨?_, ?_, ?_, ?_, ?_⟩
  · cases hr : env.resolveRoot with
    | noSuch => simp [outcomeOf, hr]
    | err m => simp [outcomeOf, hr]
    | ok =>
      obtain ⟨a, b, c, heq⟩ := outcomeOf_eq_cleanup pid env hr
      rw [heq]
      intro x hx
      exact (cleanup_killed_mem.1 hx).2.2
  · cases hr : env.resolveRoot with
    | noSuch => simp [outcomeOf, hr]
    | err m => simp [outcomeOf, hr]
    | ok =>
      simp only [outcomeOf, hr]
      by_cases halive : (alive1List pid env).isEmpty
      · rw [if_pos halive]
        intro x hx
        exact mem_allProcs_cases (gone1_subset (cleanup_terminated_mem.1 hx).1)
      · rw [if_neg halive]
        intro x hx
        exact mem_allProcs_cases (termAfterKill_subset (cleanup_terminated_mem.1 hx).1)
  · cases hr : env.resolveRoot with
    | noSuch => simp [outcomeOf, hr]
    | err m => simp [outcomeOf, hr]
    | ok =>
      simp only [outcomeOf, hr]
      by_cases halive : (alive1List pid env).isEmpty
      · rw [if_pos halive]
        intro x hx
        rcases (cleanup_killed_mem.1 hx).1 with h
        cases h
      · rw [if_neg halive]
        intro x hx
        exact mem_allProcs_cases (killedRaw_subset (cleanup_killed_mem.1 hx).1)
  · cases hr : env.resolveRoot with
    | noSuch => simp [outcomeOf, hr]
    | err m =>
      simp only [outcomeOf, hr]
      intro e he
      rcases List.mem_cons.1 he with h | h
      · subst h; exact Or.inl rfl
      · cases h
    | ok =>
      simp only [outcomeOf, hr]
      by_cases halive : (alive1List pid env).isEmpty
      · rw [if_pos halive]
        intro e he
        exact mem_allProcs_cases (gracefulFailed_subset (cleanup_failed_mem.1 he).1)
      · rw [if_neg halive]
        intro e he
        rcases List.mem_append.1 (cleanup_failed_mem.1 he).1 with h | h
        · rcases List.mem_append.1 h with h | h
          · exact mem_allProcs_cases (gracefulFailed_subset h)
          · exact mem_allProcs_cases (killErrFailed_subset h)
        · exact mem_allProcs_cases (failedTail_subset h)
  · intro hroot hw1 hw2 p hp hp0
    exact coverage_helper pid env hroot hw1 hw2 p hp hp0

/-- Witness for **C1 (amended)** on the concrete tree of
`envGraceKill`: pid 11 is in `killed` hence not in `terminated`, and
the discovered descendant 10 is covered by some bucket. -/
theorem buckets_disjointness_amended_witness :
    11 ∉ (terminate_process_tree 7 5 envGraceKill).1.terminated
    ∧ (10 ∈ (terminate_process_tree 7 5 envGraceKill).1.terminated
        ∨ 10 ∈ (terminate_process_tree 7 5 envGraceKill).1.killed
        ∨ ∃ m, (10, m) ∈ (terminate_process_tree 7 5 envGraceKill).1.failed) :=
  ⟨(buckets_disjointness_amended 7 5 envGraceKill).1 11 (by decide),
   (buckets_disjointness_amended 7 5 envGraceKill).2.2.2.2 rfl rfl rfl 10
     (by decide) (by decide)⟩

end ProcPort
